import Mathlib

/-!
# Verification of the Task Management API (`task-management-api/main.py`)

Shallow embedding of the FastAPI/SQLModel CRUD service in
`src/Project_1/claude-code-skills-lab-main/task-management-api/main.py`.

Modelling notes, tied to the source:

* The `Task` database model (main.py lines 41-48) is a SQLModel `table=True`
  class.  SQLModel table models perform **no** pydantic validation on
  instantiation or attribute assignment, so the `min_length=1` /
  `max_length=200` / `max_length=1000` markers on `title` and `description`
  are never enforced at the application layer, and a Python attribute of a
  row object may be assigned `None` regardless of its annotation.  We
  therefore model every row field as an `Option` at the object level.

* Column nullability follows the SQLModel annotations: a non-`Optional`
  annotation yields a `NOT NULL` column.  Hence `title`, `completed` and
  `priority` are `NOT NULL` columns while `description` is nullable.  The
  SQLite backend (`DB_URL` defaults to `sqlite:///./tasks.db`, main.py
  line 13) enforces `NOT NULL` when the session commits; a violating
  `INSERT`/`UPDATE` raises an `IntegrityError` that no handler catches, so
  FastAPI surfaces it as a 500 server fault and the transaction rolls back.
  This is captured by `notNullOk` and the commit checks in the handlers.

* Request bodies: a JSON body may omit a key, set it to `null`, or set it
  to a value; pydantic distinguishes all three (`model_fields_set` /
  `exclude_unset`).  `JField` is that three-state field.  Wrong-typed JSON
  values (e.g. a number where a string is expected) are not representable
  in this typed body; none of the verified properties concerns them.

* FastAPI deserialises and validates the body model **before** the handler
  runs, so a body validation failure (422) precedes any id lookup.

* `datetime.now(timezone.utc)` and the SQLite-generated primary key are
  modelled as an explicit `now` parameter and a `nextId` counter in the
  store.
-/

namespace TaskApi

/-- A JSON field of an HTTP request body: absent from the body, explicitly
`null`, or an explicit value.  Pydantic distinguishes the three states. -/
inductive JField (α : Type) where
  | absent : JField α
  | null : JField α
  | val : α → JField α
deriving DecidableEq

/-- In-memory/stored `Task` row (main.py lines 41-48).  Because SQLModel
`table=True` models skip validation, any attribute of the Python object can
hold `None`; each field is therefore an `Option`.  `created_at` is modelled
as an abstract timestamp (`Nat`). -/
structure Task where
  id : Nat
  title : Option String
  description : Option String
  completed : Option Bool
  priority : Option String
  created_at : Nat
deriving DecidableEq

/-- The `NOT NULL` column constraints of the `task` table, as generated by
SQLModel from the annotations in main.py lines 43-48: `title : str`,
`completed : bool` and `priority : str` are non-`Optional`, hence
`NOT NULL`; `description : str | None` is nullable.  SQLite checks these at
commit time. -/
def notNullOk (t : Task) : Bool :=
  t.title.isSome && t.completed.isSome && t.priority.isSome

/-- The database: generated-primary-key counter plus the rows of the single
`task` table, in insertion order. -/
structure Store where
  nextId : Nat
  rows : List Task
deriving DecidableEq

/-- The store at process start: empty table, SQLite assigns ids from 1. -/
def Store.empty : Store := { nextId := 1, rows := [] }

/-- `session.get(Task, task_id)`: point lookup by primary key. -/
def findTask (s : Store) (tid : Nat) : Option Task :=
  s.rows.find? (fun r => r.id == tid)

/-- The committed `UPDATE task SET ... WHERE id = tid`: replaces every row
whose primary key is `tid` (there is at most one) by `t'`. -/
def setTask (s : Store) (tid : Nat) (t' : Task) : Store :=
  { s with rows := s.rows.map (fun r => if r.id == tid then t' else r) }

/-- An HTTP response of this service: a serialised task record, a
`{"message": ...}` body, an `HTTPException` `{"detail": ...}` body, a 422
pydantic validation error, or a 500 from an unhandled storage error. -/
inductive HResp where
  | record : Nat → Task → HResp
  | message : Nat → String → HResp
  | httpError : Nat → String → HResp
  | validationError : HResp
  | serverFault : HResp
deriving DecidableEq

/-- HTTP status code of a response. -/
def HResp.status : HResp → Nat
  | record s _ => s
  | message s _ => s
  | httpError s _ => s
  | validationError => 422
  | serverFault => 500

/-- An HTTP request body for the `/tasks` endpoints: the four JSON keys the
request models of main.py read. -/
structure Body where
  title : JField String
  description : JField String
  completed : JField Bool
  priority : JField String
deriving DecidableEq

/-- Pydantic parse of a required, non-nullable `str` field (no default):
absent and `null` are validation errors. -/
def reqStr : JField String → Option String
  | .val s => some s
  | _ => none

/-- Pydantic parse of `str | None = None`: absent and `null` both yield
`None`. -/
def optStr : JField String → Option (Option String)
  | .absent => some none
  | .null => some none
  | .val s => some (some s)

/-- Pydantic parse of a non-nullable `bool` with a default: absent yields
the default, `null` is a validation error. -/
def dfltBool (d : Bool) : JField Bool → Option Bool
  | .absent => some d
  | .null => none
  | .val b => some b

/-- Pydantic parse of a non-nullable `str` with a default: absent yields
the default, `null` is a validation error. -/
def dfltStr (d : String) : JField String → Option String
  | .absent => some d
  | .null => none
  | .val s => some s

/-- Validated `TaskCreate` data (main.py lines 55-60): `title: str`,
`description: str | None = None`, `completed: bool = False`,
`priority: str = "medium"`.  No length constraints appear on this model. -/
structure CreateData where
  title : String
  description : Option String
  completed : Bool
  priority : String
deriving DecidableEq

/-- Pydantic validation of a POST body against `TaskCreate` (main.py lines
55-60).  `none` is a 422 validation error. -/
def parseTaskCreate (b : Body) : Option CreateData := do
  let t ← reqStr b.title
  let d ← optStr b.description
  let c ← dfltBool false b.completed
  let p ← dfltStr "medium" b.priority
  pure ⟨t, d, c, p⟩

/-- Pydantic validation of a PUT body against `TaskUpdate` (main.py lines
63-68).  The model is field-for-field identical to `TaskCreate`: only
`title` is required; `description`, `completed` and `priority` carry
defaults `None`, `False` and `"medium"`. -/
def parseTaskUpdate (b : Body) : Option CreateData := do
  let t ← reqStr b.title
  let d ← optStr b.description
  let c ← dfltBool false b.completed
  let p ← dfltStr "medium" b.priority
  pure ⟨t, d, c, p⟩

/-- Validated `TaskPatch` data (main.py lines 71-76) after
`model_dump(exclude_unset=True)` (main.py line 192): for each field,
`none` means the key was omitted from the body (left out of the dump) and
`some v` means the key was explicitly supplied with value `v` (`some none`
is an explicit JSON `null`). -/
structure PatchData where
  title : Option (Option String)
  description : Option (Option String)
  completed : Option (Option Bool)
  priority : Option (Option String)
deriving DecidableEq

/-- Pydantic parse of one `Optional[...] = None` field of `TaskPatch`,
tracking whether it was explicitly set. -/
def patchField {α : Type} : JField α → Option (Option α)
  | .absent => none
  | .null => some none
  | .val a => some (some a)

/-- Pydantic validation of a PATCH body against `TaskPatch` (main.py lines
71-76).  Every field is `Optional` with default `None`, so every
representable body is accepted. -/
def parseTaskPatch (b : Body) : PatchData :=
  ⟨patchField b.title, patchField b.description,
   patchField b.completed, patchField b.priority⟩

/-- The `setattr` loop of `patch_task` (main.py lines 192-194): each field
present in the `exclude_unset` dump overwrites the row attribute; omitted
fields are untouched. -/
def applyPatch (t : Task) (p : PatchData) : Task :=
  { t with
    title := match p.title with | none => t.title | some v => v
    description := match p.description with | none => t.description | some v => v
    completed := match p.completed with | none => t.completed | some v => v
    priority := match p.priority with | none => t.priority | some v => v }

/-- `POST /tasks` — `create_task` (main.py lines 100-119): validate the
body against `TaskCreate`, build a `Task` row (SQLModel performs no
validation here), insert and commit, return 201 with the stored record. -/
def create_task (s : Store) (now : Nat) (b : Body) : HResp × Store :=
  match parseTaskCreate b with
  | none => (.validationError, s)
  | some c =>
    let t : Task := { id := s.nextId, title := some c.title,
                      description := c.description, completed := some c.completed,
                      priority := some c.priority, created_at := now }
    if notNullOk t then
      (.record 201 t, { nextId := s.nextId + 1, rows := s.rows ++ [t] })
    else
      (.serverFault, s)

/-- `GET /tasks/{task_id}` — `get_task` (main.py lines 141-154): 404 with
detail `"Task not found"` when the id is absent, otherwise 200 with the
record.  Read-only. -/
def get_task (s : Store) (tid : Nat) : HResp :=
  match findTask s tid with
  | none => .httpError 404 "Task not found"
  | some t => .record 200 t

/-- `PUT /tasks/{task_id}` — `update_task` (main.py lines 158-181): body
validated against `TaskUpdate` before the handler runs; then 404 when the
id is absent; otherwise all four mutable attributes are overwritten with
the validated values and the row is committed. -/
def update_task (s : Store) (tid : Nat) (b : Body) : HResp × Store :=
  match parseTaskUpdate b with
  | none => (.validationError, s)
  | some u =>
    match findTask s tid with
    | none => (.httpError 404 "Task not found", s)
    | some t =>
      let t' : Task := { t with title := some u.title, description := u.description,
                                completed := some u.completed, priority := some u.priority }
      if notNullOk t' then
        (.record 200 t', setTask s tid t')
      else
        (.serverFault, s)

/-- `PATCH /tasks/{task_id}` — `patch_task` (main.py lines 185-207): body
validated against `TaskPatch` (always succeeds for representable bodies);
404 when the id is absent; otherwise exactly the explicitly-set fields
overwrite the row attributes and the row is committed.  A commit that
violates a `NOT NULL` column fails as a 500 server fault with the
transaction rolled back. -/
def patch_task (s : Store) (tid : Nat) (b : Body) : HResp × Store :=
  let p := parseTaskPatch b
  match findTask s tid with
  | none => (.httpError 404 "Task not found", s)
  | some t =>
    let t' := applyPatch t p
    if notNullOk t' then
      (.record 200 t', setTask s tid t')
    else
      (.serverFault, s)

/-- `DELETE /tasks/{task_id}` — `delete_task` (main.py lines 211-221): 404
when the id is absent; otherwise the row is deleted and a 200
`{"message": "Task {task_id} deleted successfully"}` is returned. -/
def delete_task (s : Store) (tid : Nat) : HResp × Store :=
  match findTask s tid with
  | none => (.httpError 404 "Task not found", s)
  | some _ =>
    (.message 200 ("Task " ++ toString tid ++ " deleted successfully"),
     { s with rows := s.rows.filter (fun r => r.id != tid) })

/-! ## Concrete fixtures used by counterexamples and witnesses -/

/-- A baseline stored task, mirroring the `sample_task` fixture of the
test suite. -/
def task0 : Task :=
  { id := 1, title := some "Sample Task", description := some "This is a sample task",
    completed := some false, priority := some "medium", created_at := 0 }

/-- A store holding exactly `task0`, with the id counter past it. -/
def store0 : Store := { nextId := 2, rows := [task0] }

/-- PATCH body `{"priority": null}`. -/
def bodyPriorityNull : Body := ⟨.absent, .absent, .absent, .null⟩

/-- PATCH body `{"completed": null}`. -/
def bodyCompletedNull : Body := ⟨.absent, .absent, .null, .absent⟩

/-- POST body `{"title": ""}`. -/
def bodyEmptyTitle : Body := ⟨.val "", .absent, .absent, .absent⟩

/-- Body `{"title": "x"}`: only `title` supplied. -/
def bodyTitleOnly : Body := ⟨.val "x", .absent, .absent, .absent⟩

/-! ## Helper lemmas about the store -/

/-- A row found by primary key carries that primary key. -/
theorem findTask_some_id {s : Store} {tid : Nat} {t : Task}
    (h : findTask s tid = some t) : t.id = tid := by
  have := List.find?_some h
  simpa using this

/-- Point lookup after an `UPDATE ... WHERE id = tid` returns the new row,
provided the id was present and the new row keeps the key. -/
theorem find?_map_set {rows : List Task} {tid : Nat} {t : Task} (t' : Task)
    (hid : t'.id = tid) (h : rows.find? (fun r => r.id == tid) = some t) :
    (rows.map (fun r => if r.id == tid then t' else r)).find? (fun r => r.id == tid)
      = some t' := by
  induction rows with
  | nil => simp at h
  | cons r rs ih =>
    simp only [List.map_cons]
    by_cases hr : r.id = tid
    · rw [if_pos (beq_iff_eq.mpr hr)]
      exact List.find?_cons_of_pos _ (by simpa using hid)
    · rw [if_neg (by simpa using hr)]
      rw [List.find?_cons_of_neg _ (by simpa using hr)]
      rw [List.find?_cons_of_neg _ (by simpa using hr)] at h
      exact ih h

/-- An `UPDATE ... WHERE id = tid` leaves lookups of every other key
unchanged, provided the new row keeps the key `tid`. -/
theorem find?_map_set_ne {rows : List Task} {tid j : Nat} (t' : Task)
    (hid : t'.id = tid) (hj : j ≠ tid) :
    (rows.map (fun r => if r.id == tid then t' else r)).find? (fun r => r.id == j)
      = rows.find? (fun r => r.id == j) := by
  induction rows with
  | nil => simp
  | cons r rs ih =>
    simp only [List.map_cons]
    by_cases hr : r.id = tid
    · rw [if_pos (beq_iff_eq.mpr hr)]
      rw [List.find?_cons_of_neg _ (by simp [hid]; omega)]
      rw [List.find?_cons_of_neg _ (by simp [hr]; omega)]
      exact ih
    · rw [if_neg (by simpa using hr)]
      by_cases hj2 : r.id = j
      · rw [List.find?_cons_of_pos _ (by simpa using hj2),
          List.find?_cons_of_pos _ (by simpa using hj2)]
      · rw [List.find?_cons_of_neg _ (by simpa using hj2),
          List.find?_cons_of_neg _ (by simpa using hj2)]
        exact ih

/-- After `DELETE ... WHERE id = tid`, lookup of `tid` finds nothing. -/
theorem find?_filter_self_none (rows : List Task) (tid : Nat) :
    (rows.filter (fun r => r.id != tid)).find? (fun r => r.id == tid) = none := by
  rw [List.find?_eq_none]
  intro x hx
  have := (List.mem_filter.mp hx).2
  simpa using this

/-! ## Claim theorems -/

/-- C8: a POST whose body supplies only `title` creates a record with the
`TaskCreate` defaults `description = null`, `completed = false`,
`priority = "medium"`, returned with status 201. -/
theorem C8_create_only_title_defaults (s : Store) (now : Nat) (title : String) :
    create_task s now ⟨.val title, .absent, .absent, .absent⟩
      = (.record 201 { id := s.nextId, title := some title, description := none,
                       completed := some false, priority := some "medium", created_at := now },
         { nextId := s.nextId + 1,
           rows := s.rows ++ [{ id := s.nextId, title := some title, description := none,
                                completed := some false, priority := some "medium",
                                created_at := now }] }) := rfl

/-- C2 (code bug): `TaskCreate` (main.py lines 55-60) carries no length
constraints, and the SQLModel `table=True` row model performs no
validation, so a POST with an empty title — likewise one with a 201-char
title — is accepted with 201 and a row is inserted, where the claim (and
the `min_length=1, max_length=200` markers on the `Task` model, main.py
line 44) require a 422 rejection with no insert. -/
theorem C2_invalid_title_accepted :
    create_task Store.empty 7 bodyEmptyTitle
      = (.record 201 { id := 1, title := some "", description := none,
                       completed := some false, priority := some "medium", created_at := 7 },
         { nextId := 2,
           rows := [{ id := 1, title := some "", description := none,
                      completed := some false, priority := some "medium", created_at := 7 }] })
    ∧ (String.mk (List.replicate 201 'a')).length = 201
    ∧ (create_task Store.empty 7
        ⟨.val (String.mk (List.replicate 201 'a')), .absent, .absent, .absent⟩).1.status
        = 201 := by
  refine ⟨rfl, ?_, rfl⟩
  rw [show (String.mk (List.replicate 201 'a')).length
        = (List.replicate 201 'a').length from rfl]
  rw [List.length_replicate]

/-- C4 (code bug): after a POST with `{"title": ""}` the store contains a
record whose title is the empty string, so the `title is never empty`
invariant claimed by the spec (and marked `min_length=1` on the `Task`
model, main.py line 44) does not hold of every reachable state. -/
theorem C4_empty_title_reachable :
    findTask (create_task Store.empty 7 bodyEmptyTitle).2 1
      = some { id := 1, title := some "", description := none, completed := some false,
               priority := some "medium", created_at := 7 }
    ∧ ("" : String).length = 0 := ⟨rfl, rfl⟩

/-- C3 (counterexample): a PUT body supplying only `title` passes
`TaskUpdate` validation (`completed` and `priority` carry defaults,
main.py lines 63-68) and is applied with status 200 — it is not rejected
with 422 as the claim states. -/
theorem C3_counterexample :
    parseTaskUpdate bodyTitleOnly = some ⟨"x", none, false, "medium"⟩
    ∧ update_task store0 1 bodyTitleOnly
      = (.record 200 { id := 1, title := some "x", description := none,
                       completed := some false, priority := some "medium", created_at := 0 },
         { nextId := 2,
           rows := [{ id := 1, title := some "x", description := none,
                      completed := some false, priority := some "medium",
                      created_at := 0 }] })
    ∧ (update_task store0 1 bodyTitleOnly).1.status = 200 := ⟨rfl, rfl, rfl⟩

/-- C3 (amended): in a PUT body only `title` is required (a body without
it is rejected 422); omitted `description`, `completed` and `priority`
default to null, false and `"medium"`, and the body is accepted and
applied in full-replace fashion. -/
theorem C3_put_only_title_required (s : Store) (tid : Nat) (t : Task) (title : String)
    (ht : findTask s tid = some t) :
    update_task s tid ⟨.absent, .absent, .absent, .absent⟩ = (.validationError, s)
    ∧ update_task s tid ⟨.val title, .absent, .absent, .absent⟩
      = (.record 200 { t with title := some title, description := none,
                              completed := some false, priority := some "medium" },
         setTask s tid { t with title := some title, description := none,
                                completed := some false, priority := some "medium" }) := by
  refine ⟨rfl, ?_⟩
  simp [update_task, parseTaskUpdate, reqStr, optStr, dfltBool, dfltStr, ht, notNullOk]

/-- C3 witness: the amended PUT behaviour at the singleton store. -/
theorem C3_put_only_title_required_witness :
    update_task store0 1 ⟨.absent, .absent, .absent, .absent⟩ = (.validationError, store0)
    ∧ update_task store0 1 ⟨.val "y", .absent, .absent, .absent⟩
      = (.record 200 { task0 with title := some "y", description := none,
                                  completed := some false, priority := some "medium" },
         setTask store0 1 { task0 with title := some "y", description := none,
                                       completed := some false, priority := some "medium" }) :=
  C3_put_only_title_required store0 1 task0 "y" rfl

/-- C6: operating on a nonexistent id: GET returns 404 with detail
`"Task not found"`; PUT (for any body passing `TaskUpdate` validation),
PATCH and DELETE return the same 404 and leave the store unchanged.  (A
PUT body failing validation is rejected 422 before the existence
check.) -/
theorem C6_missing_id_uniform_404 (s : Store) (tid : Nat)
    (h : findTask s tid = none) :
    get_task s tid = .httpError 404 "Task not found"
    ∧ (∀ b u, parseTaskUpdate b = some u →
        update_task s tid b = (.httpError 404 "Task not found", s))
    ∧ (∀ b, patch_task s tid b = (.httpError 404 "Task not found", s))
    ∧ delete_task s tid = (.httpError 404 "Task not found", s) := by
  refine ⟨?_, ?_, ?_, ?_⟩
  · simp [get_task, h]
  · intro b u hb
    simp [update_task, hb, h]
  · intro b
    simp [patch_task, h]
  · simp [delete_task, h]

/-- C6 witness: nonexistent id 999 against the singleton store. -/
theorem C6_missing_id_uniform_404_witness :
    get_task store0 999 = .httpError 404 "Task not found"
    ∧ update_task store0 999 bodyTitleOnly = (.httpError 404 "Task not found", store0)
    ∧ patch_task store0 999 bodyCompletedNull = (.httpError 404 "Task not found", store0)
    ∧ delete_task store0 999 = (.httpError 404 "Task not found", store0) := by
  obtain ⟨h1, h2, h3, h4⟩ := C6_missing_id_uniform_404 store0 999 rfl
  exact ⟨h1, h2 bodyTitleOnly ⟨"x", none, false, "medium"⟩ rfl, h3 bodyCompletedNull, h4⟩

/-- C9: deleting an existing id removes the record — a subsequent GET of
that id is 404 `"Task not found"` — and the response is 200 with the
message `"Task {id} deleted successfully"` naming the id. -/
theorem C9_delete_removes_record (s : Store) (tid : Nat) (t : Task)
    (ht : findTask s tid = some t) :
    delete_task s tid
      = (.message 200 ("Task " ++ toString tid ++ " deleted successfully"),
         { s with rows := s.rows.filter (fun r => r.id != tid) })
    ∧ findTask (delete_task s tid).2 tid = none
    ∧ get_task (delete_task s tid).2 tid = .httpError 404 "Task not found" := by
  have hd : delete_task s tid
      = (.message 200 ("Task " ++ toString tid ++ " deleted successfully"),
         { s with rows := s.rows.filter (fun r => r.id != tid) }) := by
    simp [delete_task, ht]
  have hn : findTask (delete_task s tid).2 tid = none := by
    rw [hd]
    exact find?_filter_self_none s.rows tid
  exact ⟨hd, hn, by simp [get_task, hn]⟩

/-- C9 witness: delete id 1 from the singleton store. -/
theorem C9_delete_removes_record_witness :
    delete_task store0 1
      = (.message 200 ("Task " ++ toString 1 ++ " deleted successfully"),
         { store0 with rows := store0.rows.filter (fun r => r.id != 1) })
    ∧ findTask (delete_task store0 1).2 1 = none
    ∧ get_task (delete_task store0 1).2 1 = .httpError 404 "Task not found" :=
  C9_delete_removes_record store0 1 task0 rfl

/-- C5: a successful PUT overwrites all four mutable fields of the stored
record unconditionally with the validated body values; in particular a
`description` omitted from the body parses to `None` (the `TaskUpdate`
default) and is stored as null even if it previously held a value. -/
theorem C5_put_full_replace (s : Store) (tid : Nat) (t : Task) (b : Body) (u : CreateData)
    (hb : parseTaskUpdate b = some u) (ht : findTask s tid = some t) :
    update_task s tid b
      = (.record 200 { t with title := some u.title, description := u.description,
                              completed := some u.completed, priority := some u.priority },
         setTask s tid { t with title := some u.title, description := u.description,
                                completed := some u.completed, priority := some u.priority })
    ∧ findTask (update_task s tid b).2 tid
        = some { t with title := some u.title, description := u.description,
                        completed := some u.completed, priority := some u.priority }
    ∧ (b.description = .absent → u.description = none) := by
  have hid : t.id = tid := findTask_some_id ht
  have hmain : update_task s tid b
      = (.record 200 { t with title := some u.title, description := u.description,
                              completed := some u.completed, priority := some u.priority },
         setTask s tid { t with title := some u.title, description := u.description,
                                completed := some u.completed, priority := some u.priority }) := by
    simp [update_task, hb, ht, notNullOk]
  refine ⟨hmain, ?_, ?_⟩
  · rw [hmain]
    exact find?_map_set _ hid ht
  · intro hd
    cases hT : reqStr b.title with
    | none => simp [parseTaskUpdate, hT] at hb
    | some tt =>
      cases hC : dfltBool false b.completed with
      | none => simp [parseTaskUpdate, hT, hC] at hb
      | some cc =>
        cases hP : dfltStr "medium" b.priority with
        | none => simp [parseTaskUpdate, hT, hC, hP] at hb
        | some pp =>
          simp [parseTaskUpdate, hT, hC, hP, hd, optStr] at hb
          rw [← hb]

/-- C5 witness: a full-body PUT against the singleton store — the prior
description is replaced and an omitted description parses to `None`. -/
theorem C5_put_full_replace_witness :
    update_task store0 1 bodyTitleOnly
      = (.record 200 { task0 with title := some "x", description := none,
                                  completed := some false, priority := some "medium" },
         setTask store0 1 { task0 with title := some "x", description := none,
                                       completed := some false, priority := some "medium" })
    ∧ findTask (update_task store0 1 bodyTitleOnly).2 1
        = some { task0 with title := some "x", description := none,
                            completed := some false, priority := some "medium" }
    ∧ (bodyTitleOnly.description = .absent →
        (⟨"x", none, false, "medium"⟩ : CreateData).description = none) :=
  C5_put_full_replace store0 1 task0 bodyTitleOnly ⟨"x", none, false, "medium"⟩ rfl rfl

/-- C1 (counterexample): with PATCH body `{"priority": null}` against the
baseline task the `priority` field is explicitly present in the body, yet
the stored record keeps its previous priority `"medium"` — the request
fails as a 500 server fault — so this PATCH does not overwrite the
explicitly present field as the claim requires of every body. -/
theorem C1_counterexample :
    (parseTaskPatch bodyPriorityNull).priority = some none
    ∧ patch_task store0 1 bodyPriorityNull = (.serverFault, store0)
    ∧ findTask (patch_task store0 1 bodyPriorityNull).2 1 = some task0
    ∧ task0.priority = some "medium" := ⟨rfl, rfl, rfl, rfl⟩

/-- C1 (amended): for every existing task and PATCH body, the `setattr`
loop overwrites exactly the fields explicitly present in the body
(distinguishing omitted from explicit null) and keeps every omitted field;
if the resulting row satisfies the `NOT NULL` columns (in particular
whenever no explicit null is written to `title`, `completed` or
`priority`) it is committed and returned with 200, otherwise the commit
fails as a 500 server fault and the store is unchanged. -/
theorem C1_patch_overwrites_exactly_present (s : Store) (tid : Nat) (t t2 : Task)
    (b : Body) (p : PatchData)
    (ht : findTask s tid = some t) (hp : p = parseTaskPatch b)
    (h2 : t2 = applyPatch t p) :
    (∀ v, p.title = some v → t2.title = v)
    ∧ (p.title = none → t2.title = t.title)
    ∧ (∀ v, p.description = some v → t2.description = v)
    ∧ (p.description = none → t2.description = t.description)
    ∧ (∀ v, p.completed = some v → t2.completed = v)
    ∧ (p.completed = none → t2.completed = t.completed)
    ∧ (∀ v, p.priority = some v → t2.priority = v)
    ∧ (p.priority = none → t2.priority = t.priority)
    ∧ (notNullOk t2 = true →
        patch_task s tid b = (.record 200 t2, setTask s tid t2)
        ∧ findTask (patch_task s tid b).2 tid = some t2)
    ∧ (notNullOk t2 = false → patch_task s tid b = (.serverFault, s)) := by
  have hid : t.id = tid := findTask_some_id ht
  subst hp
  subst h2
  refine ⟨?_, ?_, ?_, ?_, ?_, ?_, ?_, ?_, ?_, ?_⟩
  · intro v hv; simp [applyPatch, hv]
  · intro hv; simp [applyPatch, hv]
  · intro v hv; simp [applyPatch, hv]
  · intro hv; simp [applyPatch, hv]
  · intro v hv; simp [applyPatch, hv]
  · intro hv; simp [applyPatch, hv]
  · intro v hv; simp [applyPatch, hv]
  · intro hv; simp [applyPatch, hv]
  · intro hN
    have hmain : patch_task s tid b
        = (.record 200 (applyPatch t (parseTaskPatch b)),
           setTask s tid (applyPatch t (parseTaskPatch b))) := by
      simp [patch_task, ht, hN]
    refine ⟨hmain, ?_⟩
    rw [hmain]
    exact find?_map_set _ hid ht
  · intro hN
    simp [patch_task, ht, hN]

/-- C1 witness: the spec example `PATCH {"completed": true}` — title and
description kept, completed overwritten, committed with 200. -/
theorem C1_patch_overwrites_exactly_present_witness :
    patch_task store0 1 ⟨.absent, .absent, .val true, .absent⟩
      = (.record 200 (applyPatch task0 (parseTaskPatch ⟨.absent, .absent, .val true, .absent⟩)),
         setTask store0 1
           (applyPatch task0 (parseTaskPatch ⟨.absent, .absent, .val true, .absent⟩)))
    ∧ (applyPatch task0 (parseTaskPatch ⟨.absent, .absent, .val true, .absent⟩)).title
        = task0.title
    ∧ (applyPatch task0 (parseTaskPatch ⟨.absent, .absent, .val true, .absent⟩)).completed
        = some true := by
  obtain ⟨h1, h2, h3, h4, h5, h6, h7, h8, h9, h10⟩ :=
    C1_patch_overwrites_exactly_present store0 1 task0 _
      ⟨.absent, .absent, .val true, .absent⟩ _ rfl rfl rfl
  exact ⟨(h9 rfl).1, h2 rfl, h5 (some true) rfl⟩

/-- C10 (counterexample): PATCH `{"completed": null}` on the baseline task
does not succeed with 200 and does not store a null: the commit violates
the `NOT NULL` `completed` column, the request is a 500 server fault and
the store is unchanged. -/
theorem C10_counterexample :
    patch_task store0 1 bodyCompletedNull = (.serverFault, store0)
    ∧ (patch_task store0 1 bodyCompletedNull).1.status = 500
    ∧ findTask (patch_task store0 1 bodyCompletedNull).2 1 = some task0 := ⟨rfl, rfl, rfl⟩

/-- C10 (amended): a PATCH explicitly setting `completed` or `priority` to
null passes `TaskPatch` validation and the `setattr` loop does assign the
null to the row object, but the commit violates the corresponding
`NOT NULL` column, so the request fails as a 500 server fault and the
stored record is unchanged — the null is never persisted. -/
theorem C10_patch_explicit_null_is_server_fault (s : Store) (tid : Nat) (t : Task)
    (b : Body) (ht : findTask s tid = some t)
    (hb : b.completed = JField.null ∨ b.priority = JField.null) :
    ((applyPatch t (parseTaskPatch b)).completed = none
      ∨ (applyPatch t (parseTaskPatch b)).priority = none)
    ∧ patch_task s tid b = (.serverFault, s)
    ∧ (patch_task s tid b).1.status = 500
    ∧ findTask (patch_task s tid b).2 tid = some t := by
  have hfail : notNullOk (applyPatch t (parseTaskPatch b)) = false := by
    rcases hb with hb | hb <;>
      simp [notNullOk, applyPatch, parseTaskPatch, patchField, hb]
  have hmain : patch_task s tid b = (.serverFault, s) := by
    simp [patch_task, ht, hfail]
  refine ⟨?_, hmain, by rw [hmain]; rfl, by rw [hmain]; exact ht⟩
  rcases hb with hb | hb
  · exact Or.inl (by simp [applyPatch, parseTaskPatch, patchField, hb])
  · exact Or.inr (by simp [applyPatch, parseTaskPatch, patchField, hb])

/-- C10 witness: the amended behaviour at `{"completed": null}` against
the singleton store. -/
theorem C10_patch_explicit_null_is_server_fault_witness :
    ((applyPatch task0 (parseTaskPatch bodyCompletedNull)).completed = none
      ∨ (applyPatch task0 (parseTaskPatch bodyCompletedNull)).priority = none)
    ∧ patch_task store0 1 bodyCompletedNull = (.serverFault, store0)
    ∧ (patch_task store0 1 bodyCompletedNull).1.status = 500
    ∧ findTask (patch_task store0 1 bodyCompletedNull).2 1 = some task0 :=
  C10_patch_explicit_null_is_server_fault store0 1 task0 bodyCompletedNull rfl (Or.inl rfl)

/-- C7: a successful PUT and a successful PATCH both preserve the `id` and
`created_at` of the target record and leave the lookup of every other id
unchanged. -/
theorem C7_updates_preserve_id_created_at (s : Store) (tid : Nat) (t t2 t3 : Task)
    (s2 s3 : Store) (b bp : Body)
    (ht : findTask s tid = some t)
    (hu : update_task s tid b = (.record 200 t2, s2))
    (hpp : patch_task s tid bp = (.record 200 t3, s3)) :
    t2.id = t.id ∧ t2.created_at = t.created_at
    ∧ t3.id = t.id ∧ t3.created_at = t.created_at
    ∧ (∀ j, j ≠ tid → findTask s2 j = findTask s j)
    ∧ (∀ j, j ≠ tid → findTask s3 j = findTask s j) := by
  have hid : t.id = tid := findTask_some_id ht
  cases hU : parseTaskUpdate b with
  | none => simp [update_task, hU] at hu
  | some u =>
    simp [update_task, hU, ht, notNullOk] at hu
    obtain ⟨hu1, hu2⟩ := hu
    cases hN : notNullOk (applyPatch t (parseTaskPatch bp)) with
    | false => simp [patch_task, ht, hN] at hpp
    | true =>
      simp [patch_task, ht, hN] at hpp
      obtain ⟨hp1, hp2⟩ := hpp
      refine ⟨?_, ?_, ?_, ?_, ?_, ?_⟩
      · rw [← hu1]
      · rw [← hu1]
      · rw [← hp1]
        simp [applyPatch]
      · rw [← hp1]
        simp [applyPatch]
      · intro j hj
        rw [← hu2]
        exact find?_map_set_ne _ hid hj
      · intro j hj
        rw [← hp2]
        exact find?_map_set_ne _ hid hj

/-- C7 witness: PUT `{"title": "x"}` and PATCH `{"completed": true}`
against the singleton store preserve id and `created_at` and leave id 2
lookups unchanged. -/
theorem C7_updates_preserve_id_created_at_witness :
    ({ id := 1, title := some "x", description := none, completed := some false,
       priority := some "medium", created_at := 0 } : Task).id = task0.id
    ∧ ({ task0 with completed := some true } : Task).created_at = task0.created_at
    ∧ findTask (update_task store0 1 bodyTitleOnly).2 2 = findTask store0 2
    ∧ findTask (patch_task store0 1 ⟨.absent, .absent, .val true, .absent⟩).2 2
        = findTask store0 2 := by
  obtain ⟨h1, h2, h3, h4, h5, h6⟩ :=
    C7_updates_preserve_id_created_at store0 1 task0
      { id := 1, title := some "x", description := none, completed := some false,
        priority := some "medium", created_at := 0 }
      { task0 with completed := some true }
      (update_task store0 1 bodyTitleOnly).2
      (patch_task store0 1 ⟨.absent, .absent, .val true, .absent⟩).2
      bodyTitleOnly ⟨.absent, .absent, .val true, .absent⟩ rfl rfl rfl
  exact ⟨h1, h4, h5 2 (by decide), h6 2 (by decide)⟩

end TaskApi
